import Mathlib

/-!
Shallow embedding of `src/db/connector2.py` (class `DatabaseConnector`).

The external collaborators of the Python code are modelled as explicit
oracles passed to each operation:

  * the ODBC driver (`pyodbc.connect` / `Connection.cursor()`): one
    `DriverOutcome` per attempt number, supplied by `ConnectEnv.driver`;
    connections and cursors are abstracted as `Nat` handles;
  * the interactive prompts (`input`, `getpass.getpass`): per-attempt answer
    strings supplied by `ConnectEnv`;
  * invocations of `_select_dsn` from inside `connect` (each of which reads
    fresh data sources and user input): an `Except String String` outcome per
    attempt, supplied by `ConnectEnv.selectorResult`;
  * `Connection.close()` / `Cursor.close()` (which may raise): Boolean
    failure flags in `CloseEnv`;
  * `pandas.read_sql`: a function argument to `query_dataframe`.

Side effects (log lines, printed messages, prompts, driver calls) are
recorded as an explicit `Event` trace so that properties about "how many
attempts were made" or "which prompts were shown" are statable.
-/

namespace ODBC

/-- Python's `str.lower()` (kernel-computable, unlike `String.toLower`). -/
def lowerStr (s : String) : String := ⟨s.data.map Char.toLower⟩

/-- Python's `str.strip()`: drop leading and trailing whitespace. -/
def stripStr (s : String) : String :=
  ⟨((s.data.dropWhile Char.isWhitespace).reverse.dropWhile Char.isWhitespace).reverse⟩

/-- Outcome of one driver connection attempt: `pyodbc.connect` raises
(`openFail`), `pyodbc.connect` returns a connection `c` but `c.cursor()`
raises (`cursorFail c`), or both steps succeed (`ok c cur`). -/
inductive DriverOutcome where
  | openFail
  | cursorFail (c : Nat)
  | ok (c : Nat) (cur : Nat)
deriving DecidableEq

/-- The attempt failed (either the open or the cursor derivation raised). -/
def DriverOutcome.isFail : DriverOutcome → Bool
  | .ok _ _ => false
  | _ => true

/-- The attempt opened a connection but failed to derive the cursor. -/
def DriverOutcome.isCursorFail : DriverOutcome → Bool
  | .cursorFail _ => true
  | _ => false

/-- Observable side effects of the connector, in program order.
`attemptE n d` records the `pyodbc.connect` call of attempt `n` with the DSN
`d` used for the connection string; `errorE n` the logged error of attempt
`n`; `exhaustE` the final "Unable to connect" print plus log line. -/
inductive Event where
  | attemptE (n : Nat) (dsn : String)
  | errorE (n : Nat)
  | successE (n : Nat)
  | connFailedMsgE (n : Nat)
  | retryPromptE (n : Nat)
  | changePromptE (n : Nat)
  | selectorOkE (n : Nat)
  | selectorFailE (n : Nat)
  | userPromptE (n : Nat)
  | passPromptE (n : Nat)
  | exhaustE
  | cursorClosedE
  | connClosedE
  | closeErrorE
deriving DecidableEq

/-- The mutable attributes of a `DatabaseConnector` instance:
`self.dsn`, `self.username`, `self.password`, `self.conn`, `self.cursor`. -/
structure DatabaseConnector where
  dsn : String
  username : String
  password : String
  conn : Option Nat
  cursor : Option Nat
deriving DecidableEq

/-- `DatabaseConnector.__init__` with all three arguments supplied: stores
them and leaves `conn` and `cursor` absent (`None`). -/
def DatabaseConnector.init (dsn username password : String) : DatabaseConnector :=
  ⟨dsn, username, password, none, none⟩

/-- Oracles for one run of `connect`, indexed by attempt number (1-based). -/
structure ConnectEnv where
  driver : Nat → DriverOutcome
  retryAnswer : Nat → String
  changeAnswer : Nat → String
  selectorResult : Nat → Except String String
  newUsername : Nat → String
  newPassword : Nat → String

/-- Whether `Cursor.close()` / `Connection.close()` raise when called. -/
structure CloseEnv where
  cursorCloseFails : Bool
  connCloseFails : Bool

/-- Result of `connect`: the instance state after the call, the event trace,
and the returned `(connection, cursor)` pair (`(none, none)` on failure). -/
structure ConnectResult where
  state : DatabaseConnector
  events : List Event
  retConn : Option Nat
  retCursor : Option Nat
deriving DecidableEq

/-- `DatabaseConnector._prompt_credentials`: re-prompts the password (via
`getpass`), and additionally the username (stripped) when
`prompt_username` is true. -/
def prompt_credentials (env : ConnectEnv) (n : Nat) (prompt_username : Bool)
    (s : DatabaseConnector) : DatabaseConnector × List Event :=
  if prompt_username then
    ({ s with username := stripStr (env.newUsername n), password := env.newPassword n },
     [Event.userPromptE n, Event.passPromptE n])
  else
    ({ s with password := env.newPassword n }, [Event.passPromptE n])

/-- The failure branch of the `connect` loop body, after the `except`
handlers logged the error of attempt `n`: print "Connection failed.",
ask `Retry? [Y/n]`; if the (stripped, lowered) answer is exactly `"n"`,
break (first component `false`); otherwise optionally offer a DSN change
(catching any `_select_dsn` failure) and re-prompt credentials. -/
def handleFailure (env : ConnectEnv) (allow_change_dsn reprompt_username : Bool) (n : Nat)
    (s : DatabaseConnector) : Bool × DatabaseConnector × List Event :=
  let ev0 := [Event.connFailedMsgE n, Event.retryPromptE n]
  if lowerStr (stripStr (env.retryAnswer n)) = "n" then
    (false, s, ev0)
  else
    let p1 : DatabaseConnector × List Event :=
      if allow_change_dsn then
        if lowerStr (stripStr (env.changeAnswer n)) = "y" then
          match env.selectorResult n with
          | .ok d => ({ s with dsn := d }, [Event.changePromptE n, Event.selectorOkE n])
          | .error _ => (s, [Event.changePromptE n, Event.selectorFailE n])
        else (s, [Event.changePromptE n])
      else (s, ([] : List Event))
    let p2 := prompt_credentials env n reprompt_username p1.1
    (true, p2.1, ev0 ++ p1.2 ++ p2.2)

/-- The `while attempts < max_attempts` loop of `connect`. `remaining` is
`max_attempts - attempts` and `attempts` the number of attempts already
made; the loop body increments `attempts`, tries the driver (success
assigns `self.conn` then `self.cursor` and returns them), and on failure
runs `handleFailure`; `break` and loop exhaustion both fall through to the
final "Unable to connect" message (`exhaustE`) and return `(none, none)`. -/
def connectLoop (env : ConnectEnv) (allow_change_dsn reprompt_username : Bool) :
    Nat → Nat → DatabaseConnector → ConnectResult
  | 0, _, s => ⟨s, [Event.exhaustE], none, none⟩
  | remaining + 1, attempts, s =>
    let n := attempts + 1
    match env.driver n with
    | .ok c cur =>
      ⟨{ s with conn := some c, cursor := some cur },
       [Event.attemptE n s.dsn, Event.successE n], some c, some cur⟩
    | .openFail =>
      let h := handleFailure env allow_change_dsn reprompt_username n s
      if h.1 then
        let r := connectLoop env allow_change_dsn reprompt_username remaining n h.2.1
        ⟨r.state, Event.attemptE n s.dsn :: Event.errorE n :: (h.2.2 ++ r.events),
         r.retConn, r.retCursor⟩
      else
        ⟨h.2.1, Event.attemptE n s.dsn :: Event.errorE n :: (h.2.2 ++ [Event.exhaustE]),
         none, none⟩
    | .cursorFail c =>
      let s0 := { s with conn := some c }
      let h := handleFailure env allow_change_dsn reprompt_username n s0
      if h.1 then
        let r := connectLoop env allow_change_dsn reprompt_username remaining n h.2.1
        ⟨r.state, Event.attemptE n s.dsn :: Event.errorE n :: (h.2.2 ++ r.events),
         r.retConn, r.retCursor⟩
      else
        ⟨h.2.1, Event.attemptE n s.dsn :: Event.errorE n :: (h.2.2 ++ [Event.exhaustE]),
         none, none⟩

/-- `DatabaseConnector.connect(max_attempts, allow_change_dsn,
reprompt_username)`. `max_attempts` is an `Int` because Python places no
lower bound on it; the `while` loop runs `max 0 max_attempts` iterations
unless it returns or breaks early. -/
def connect (env : ConnectEnv) (s : DatabaseConnector) (max_attempts : Int)
    (allow_change_dsn reprompt_username : Bool) : ConnectResult :=
  connectLoop env allow_change_dsn reprompt_username max_attempts.toNat 0 s

/-- `DatabaseConnector.query_dataframe(sql)`: raises
`RuntimeError("No active database connection. Call connect() first.")` when
`self.conn` is falsy, else returns `pd.read_sql(sql, self.conn)` unmodified.
`read_sql` is the pandas capability; the instance state is not touched. -/
def query_dataframe (read_sql : String → Nat → Nat) (s : DatabaseConnector) (sql : String) :
    Except String Nat :=
  match s.conn with
  | none => Except.error "No active database connection. Call connect() first."
  | some c => Except.ok (read_sql sql c)

/-- `DatabaseConnector.close()`: inside one `try`, close the cursor if
present (logging "Cursor closed."), then the connection if present (logging
"Connection closed."); any exception is caught and logged (`closeErrorE`),
aborting the rest of the block. The attribute references `self.cursor` and
`self.conn` are never reassigned, so the state is returned unchanged. -/
def close (env : CloseEnv) (s : DatabaseConnector) : DatabaseConnector × List Event :=
  match s.cursor with
  | some _ =>
    if env.cursorCloseFails then (s, [Event.closeErrorE])
    else
      match s.conn with
      | some _ =>
        if env.connCloseFails then (s, [Event.cursorClosedE, Event.closeErrorE])
        else (s, [Event.cursorClosedE, Event.connClosedE])
      | none => (s, [Event.cursorClosedE])
  | none =>
    match s.conn with
    | some _ =>
      if env.connCloseFails then (s, [Event.closeErrorE])
      else (s, [Event.connClosedE])
    | none => (s, ([] : List Event))

/-- Result of `DatabaseConnector._select_dsn` on a finite script of inputs:
`noSources` models `RuntimeError("No DSNs found on this system.")`,
`selected d p` a normal return of identifier `d` after `p` prompts, and
`inputExhausted` the case where the (in Python unbounded) loop has consumed
the whole finite input script without a valid selection. -/
inductive SelectResult where
  | noSources
  | selected (dsn : String) (promptsUsed : Nat)
  | inputExhausted
deriving DecidableEq

/-- The `while True` selection loop of `_select_dsn`. Each input line is
modelled already parsed: `none` is a line on which `int(...)` raises
`ValueError` (e.g. `"abc"`), `some i` a line parsing to the integer `i`.
Invalid entries print a message and re-prompt; a valid index returns the
DSN name at that index. `n` counts the prompts issued so far. -/
def selectLoop (dsn_list : List (String × String)) :
    List (Option Int) → Nat → SelectResult
  | [], _ => .inputExhausted
  | none :: rest, n => selectLoop dsn_list rest (n + 1)
  | some i :: rest, n =>
    if h : 0 ≤ i ∧ i < (dsn_list.length : Int) then
      .selected (dsn_list.get ⟨i.toNat, by omega⟩).fst n
    else selectLoop dsn_list rest (n + 1)

/-- `DatabaseConnector._select_dsn`: `sources` is the ordered
`(name, driver)` sequence reported by `pyodbc.dataSources()`; raises when
it is empty, else runs the selection loop on the user's input lines. -/
def select_dsn (sources : List (String × String)) (inputs : List (Option Int)) : SelectResult :=
  if sources.isEmpty then .noSources
  else selectLoop sources inputs 1

/-- Event classifiers and counters over a trace. -/
def isAttempt : Event → Bool
  | .attemptE _ _ => true
  | _ => false

def isRetryPrompt : Event → Bool
  | .retryPromptE _ => true
  | _ => false

def isPassPrompt : Event → Bool
  | .passPromptE _ => true
  | _ => false

/-- Any interaction prompt issued by `connect` (retry question, DSN-change
question, username prompt, password prompt). -/
def isPrompt : Event → Bool
  | .retryPromptE _ => true
  | .changePromptE _ => true
  | .userPromptE _ => true
  | .passPromptE _ => true
  | _ => false

def countAttempts (evs : List Event) : Nat := evs.countP isAttempt

def countPrompts (evs : List Event) : Nat := evs.countP isPrompt

def countRetryPrompts (evs : List Event) : Nat := evs.countP isRetryPrompt

def countPassPrompts (evs : List Event) : Nat := evs.countP isPassPrompt

/-- The spec's data-model invariant: `conn` and `cursor` are both present
or both absent. -/
def bothOrNeither (s : DatabaseConnector) : Prop := s.conn.isSome = s.cursor.isSome

instance (s : DatabaseConnector) : Decidable (bothOrNeither s) := by
  unfold bothOrNeither; infer_instance

/-! ### Helper lemmas -/

lemma hf_conn (env : ConnectEnv) (a r : Bool) (n : Nat) (s : DatabaseConnector) :
    (handleFailure env a r n s).2.1.conn = s.conn := by
  unfold handleFailure prompt_credentials
  rcases env.selectorResult n with d | e <;> split_ifs <;> rfl

lemma hf_cursor (env : ConnectEnv) (a r : Bool) (n : Nat) (s : DatabaseConnector) :
    (handleFailure env a r n s).2.1.cursor = s.cursor := by
  unfold handleFailure prompt_credentials
  rcases env.selectorResult n with d | e <;> split_ifs <;> rfl

lemma hf_dsn_of_selector_error (env : ConnectEnv) (a r : Bool) (n : Nat) (s : DatabaseConnector)
    (e : String) (hsel : env.selectorResult n = .error e) :
    (handleFailure env a r n s).2.1.dsn = s.dsn := by
  unfold handleFailure prompt_credentials
  rw [hsel]
  split_ifs <;> rfl

lemma hf_cont (env : ConnectEnv) (a r : Bool) (n : Nat) (s : DatabaseConnector)
    (h : lowerStr (stripStr (env.retryAnswer n)) ≠ "n") :
    (handleFailure env a r n s).1 = true := by
  unfold handleFailure
  rw [if_neg h]

lemma hf_countAttempts (env : ConnectEnv) (a r : Bool) (n : Nat) (s : DatabaseConnector) :
    countAttempts (handleFailure env a r n s).2.2 = 0 := by
  unfold handleFailure prompt_credentials
  rcases env.selectorResult n with d | e <;> split_ifs <;> rfl

lemma hf_countRetry (env : ConnectEnv) (a r : Bool) (n : Nat) (s : DatabaseConnector) :
    countRetryPrompts (handleFailure env a r n s).2.2 = 1 := by
  unfold handleFailure prompt_credentials
  rcases env.selectorResult n with d | e <;> split_ifs <;> rfl

lemma hf_countPass_of_cont (env : ConnectEnv) (a r : Bool) (n : Nat) (s : DatabaseConnector)
    (h : lowerStr (stripStr (env.retryAnswer n)) ≠ "n") :
    countPassPrompts (handleFailure env a r n s).2.2 = 1 := by
  unfold handleFailure prompt_credentials
  rw [if_neg h]
  rcases env.selectorResult n with d | e <;> split_ifs <;> rfl

lemma hf_retry_mem (env : ConnectEnv) (a r : Bool) (n : Nat) (s : DatabaseConnector) :
    Event.retryPromptE n ∈ (handleFailure env a r n s).2.2 := by
  unfold handleFailure prompt_credentials
  rcases env.selectorResult n with d | e <;> split_ifs <;> simp

lemma hf_pass_mem_of_cont (env : ConnectEnv) (a r : Bool) (n : Nat) (s : DatabaseConnector)
    (h : lowerStr (stripStr (env.retryAnswer n)) ≠ "n") :
    Event.passPromptE n ∈ (handleFailure env a r n s).2.2 := by
  unfold handleFailure prompt_credentials
  rw [if_neg h]
  rcases env.selectorResult n with d | e <;> split_ifs <;> simp

lemma hf_selectorFail_mem (env : ConnectEnv) (r : Bool) (n : Nat) (s : DatabaseConnector)
    (e : String)
    (h : lowerStr (stripStr (env.retryAnswer n)) ≠ "n")
    (hc : lowerStr (stripStr (env.changeAnswer n)) = "y")
    (hsel : env.selectorResult n = .error e) :
    Event.selectorFailE n ∈ (handleFailure env true r n s).2.2 := by
  unfold handleFailure prompt_credentials
  rw [if_neg h, if_pos rfl, if_pos hc, hsel]
  split_ifs <;> simp

lemma close_state_eq (cenv : CloseEnv) (s : DatabaseConnector) : (close cenv s).1 = s := by
  unfold close
  rcases s.cursor with _ | c <;> rcases hc : s.conn with _ | c2 <;> simp [hc] <;> split_ifs <;> rfl

/-- Under an always-failing driver and a user who never answers "n" to the
retry prompt, each loop iteration makes one attempt, shows one retry prompt
and one password prompt, never touches `conn`/`cursor`, and the run ends in
the exhaustion message returning `(none, none)`. -/
lemma connectLoop_allFail (env : ConnectEnv) (a r : Bool)
    (hd : ∀ n, env.driver n = .openFail)
    (hr : ∀ n, lowerStr (stripStr (env.retryAnswer n)) ≠ "n") :
    ∀ remaining attempts : Nat, ∀ s : DatabaseConnector,
      (connectLoop env a r remaining attempts s).retConn = none ∧
      (connectLoop env a r remaining attempts s).retCursor = none ∧
      (connectLoop env a r remaining attempts s).state.conn = s.conn ∧
      (connectLoop env a r remaining attempts s).state.cursor = s.cursor ∧
      Event.exhaustE ∈ (connectLoop env a r remaining attempts s).events ∧
      countAttempts (connectLoop env a r remaining attempts s).events = remaining ∧
      countRetryPrompts (connectLoop env a r remaining attempts s).events = remaining ∧
      countPassPrompts (connectLoop env a r remaining attempts s).events = remaining ∧
      (∀ m, attempts < m → m ≤ attempts + remaining →
        Event.retryPromptE m ∈ (connectLoop env a r remaining attempts s).events ∧
        Event.passPromptE m ∈ (connectLoop env a r remaining attempts s).events) := by
  intro remaining
  induction remaining with
  | zero =>
    intro attempts s
    refine ⟨rfl, rfl, rfl, rfl, by simp [connectLoop], rfl, rfl, rfl, ?_⟩
    intro m h1 h2
    omega
  | succ rem ih =>
    intro attempts s
    have hcont := hf_cont env a r (attempts + 1) s (hr (attempts + 1))
    obtain ⟨ih1, ih2, ih3, ih4, ih5, ih6, ih7, ih8, ih9⟩ :=
      ih (attempts + 1) (handleFailure env a r (attempts + 1) s).2.1
    simp only [connectLoop, hd (attempts + 1), hcont, if_true]
    refine ⟨ih1, ih2, ?_, ?_, ?_, ?_, ?_, ?_, ?_⟩
    · rw [ih3, hf_conn]
    · rw [ih4, hf_cursor]
    · simp [ih5]
    · simp only [countAttempts] at ih6 ⊢
      simp [List.countP_cons, List.countP_append, isAttempt, ih6,
        show (List.countP isAttempt (handleFailure env a r (attempts + 1) s).2.2) = 0 from
          hf_countAttempts env a r (attempts + 1) s]
    · simp only [countRetryPrompts] at ih7 ⊢
      simp [List.countP_cons, List.countP_append, isRetryPrompt, ih7,
        show (List.countP isRetryPrompt (handleFailure env a r (attempts + 1) s).2.2) = 1 from
          hf_countRetry env a r (attempts + 1) s]
      omega
    · simp only [countPassPrompts] at ih8 ⊢
      simp [List.countP_cons, List.countP_append, isPassPrompt, ih8,
        show (List.countP isPassPrompt (handleFailure env a r (attempts + 1) s).2.2) = 1 from
          hf_countPass_of_cont env a r (attempts + 1) s (hr (attempts + 1))]
      omega
    · intro m h1 h2
      rcases Nat.eq_or_lt_of_le (Nat.succ_le_of_lt h1) with heq | hlt
      · constructor
        · simp only [List.mem_cons, List.mem_append]
          exact Or.inr (Or.inr (Or.inl (heq ▸ hf_retry_mem env a r (attempts + 1) s)))
        · simp only [List.mem_cons, List.mem_append]
          exact Or.inr (Or.inr (Or.inl (heq ▸
            hf_pass_mem_of_cont env a r (attempts + 1) s (hr (attempts + 1)))))
      · have := ih9 m hlt (by omega)
        constructor
        · simp only [List.mem_cons, List.mem_append]
          exact Or.inr (Or.inr (Or.inr this.1))
        · simp only [List.mem_cons, List.mem_append]
          exact Or.inr (Or.inr (Or.inr this.2))

/-- Under a driver that fails every attempt in either mode (open failure or
cursor-derivation failure) and a user who never answers "n", the loop makes
one attempt per iteration, ends in exhaustion returning `(none, none)`, and
never assigns the cursor; the connection reference is preserved only when
no failure is a cursor-derivation failure (such a failure assigns it). -/
lemma connectLoop_anyFail (env : ConnectEnv) (a r : Bool)
    (hd : ∀ n, (env.driver n).isFail = true)
    (hr : ∀ n, lowerStr (stripStr (env.retryAnswer n)) ≠ "n") :
    ∀ remaining attempts : Nat, ∀ s : DatabaseConnector,
      (connectLoop env a r remaining attempts s).retConn = none ∧
      (connectLoop env a r remaining attempts s).retCursor = none ∧
      (connectLoop env a r remaining attempts s).state.cursor = s.cursor ∧
      Event.exhaustE ∈ (connectLoop env a r remaining attempts s).events ∧
      countAttempts (connectLoop env a r remaining attempts s).events = remaining ∧
      ((∀ n, (env.driver n).isCursorFail = false) →
        (connectLoop env a r remaining attempts s).state.conn = s.conn) := by
  intro remaining
  induction remaining with
  | zero =>
    intro attempts s
    exact ⟨rfl, rfl, rfl, by simp [connectLoop], rfl, fun _ => rfl⟩
  | succ rem ih =>
    intro attempts s
    have hrn := hr (attempts + 1)
    rcases hdn : env.driver (attempts + 1) with _ | c2 | ⟨c2, cur2⟩
    · have hcont := hf_cont env a r (attempts + 1) s hrn
      obtain ⟨ih1, ih2, ih3, ih4, ih5, ih6⟩ :=
        ih (attempts + 1) (handleFailure env a r (attempts + 1) s).2.1
      simp only [connectLoop, hdn, hcont, if_true]
      refine ⟨ih1, ih2, ?_, ?_, ?_, ?_⟩
      · rw [ih3, hf_cursor]
      · simp [ih4]
      · simp only [countAttempts] at ih5 ⊢
        simp [List.countP_cons, List.countP_append, isAttempt, ih5,
          show (List.countP isAttempt (handleFailure env a r (attempts + 1) s).2.2) = 0 from
            hf_countAttempts env a r (attempts + 1) s]
      · intro hnc
        rw [ih6 hnc, hf_conn]
    · have hcont : (handleFailure env a r (attempts + 1)
          { s with conn := some c2 }).1 = true :=
        hf_cont env a r (attempts + 1) _ hrn
      obtain ⟨ih1, ih2, ih3, ih4, ih5, ih6⟩ :=
        ih (attempts + 1) (handleFailure env a r (attempts + 1) { s with conn := some c2 }).2.1
      simp only [connectLoop, hdn, hcont, if_true]
      refine ⟨ih1, ih2, ?_, ?_, ?_, ?_⟩
      · rw [ih3, hf_cursor]
      · simp [ih4]
      · simp only [countAttempts] at ih5 ⊢
        simp [List.countP_cons, List.countP_append, isAttempt, ih5,
          show (List.countP isAttempt (handleFailure env a r (attempts + 1)
            { s with conn := some c2 }).2.2) = 0 from
            hf_countAttempts env a r (attempts + 1) _]
      · intro hnc
        have hx := hnc (attempts + 1)
        rw [hdn] at hx
        simp [DriverOutcome.isCursorFail] at hx
    · have hx := hd (attempts + 1)
      rw [hdn] at hx
      simp [DriverOutcome.isFail] at hx

/-- When attempt `j` is the first succeeding attempt and the user keeps
retrying, the loop returns and stores attempt `j`'s connection and cursor,
makes exactly `j - attempts` further attempts, and no attempt numbered
beyond `j` appears in the trace. -/
lemma connectLoop_success (env : ConnectEnv) (a r : Bool) (j c cur : Nat)
    (hj : env.driver j = .ok c cur)
    (hfail : ∀ n, 1 ≤ n → n < j → (env.driver n).isFail = true)
    (hr : ∀ n, 1 ≤ n → n < j → lowerStr (stripStr (env.retryAnswer n)) ≠ "n") :
    ∀ remaining attempts : Nat, ∀ s : DatabaseConnector,
      attempts < j → j ≤ attempts + remaining →
      (connectLoop env a r remaining attempts s).retConn = some c ∧
      (connectLoop env a r remaining attempts s).retCursor = some cur ∧
      (connectLoop env a r remaining attempts s).state.conn = some c ∧
      (connectLoop env a r remaining attempts s).state.cursor = some cur ∧
      countAttempts (connectLoop env a r remaining attempts s).events = j - attempts ∧
      (∀ m d, Event.attemptE m d ∈ (connectLoop env a r remaining attempts s).events → m ≤ j) := by
  intro remaining
  induction remaining with
  | zero =>
    intro attempts s h1 h2
    omega
  | succ rem ih =>
    intro attempts s h1 h2
    by_cases hcase : attempts + 1 = j
    · subst hcase
      refine ⟨?_, ?_, ?_, ?_, ?_, ?_⟩
      · simp [connectLoop, hj]
      · simp [connectLoop, hj]
      · simp [connectLoop, hj]
      · simp [connectLoop, hj]
      · simp only [connectLoop, hj]
        simp [countAttempts, List.countP_cons, isAttempt]
      · intro m d hm
        simp only [connectLoop, hj] at hm
        simp only [List.mem_cons, List.mem_singleton] at hm
        rcases hm with h | h | h <;> simp_all
    · have hlt : attempts + 1 < j := by omega
      have hfl := hfail (attempts + 1) (by omega) hlt
      have hrn := hr (attempts + 1) (by omega) hlt
      rcases hdn : env.driver (attempts + 1) with _ | c2 | ⟨c2, cur2⟩
      · have hcont := hf_cont env a r (attempts + 1) s hrn
        obtain ⟨ih1, ih2, ih3, ih4, ih5, ih6⟩ :=
          ih (attempts + 1) (handleFailure env a r (attempts + 1) s).2.1 hlt (by omega)
        simp only [connectLoop, hdn, hcont, if_true]
        refine ⟨ih1, ih2, ih3, ih4, ?_, ?_⟩
        · simp only [countAttempts] at ih5 ⊢
          simp [List.countP_cons, List.countP_append, isAttempt, ih5,
            show (List.countP isAttempt (handleFailure env a r (attempts + 1) s).2.2) = 0 from
              hf_countAttempts env a r (attempts + 1) s]
          omega
        · intro m d hm
          simp only [List.mem_cons, List.mem_append] at hm
          rcases hm with h | h | h | h
          · injection h with h1 h2
            omega
          · exact absurd h (by simp)
          · have h0 := hf_countAttempts env a r (attempts + 1) s
            simp only [countAttempts, List.countP_eq_zero] at h0
            exact absurd (h0 _ h) (by simp [isAttempt])
          · exact ih6 m d h
      · have hcont : (handleFailure env a r (attempts + 1)
            { s with conn := some c2 }).1 = true :=
          hf_cont env a r (attempts + 1) _ hrn
        obtain ⟨jh1, jh2, jh3, jh4, jh5, jh6⟩ :=
          ih (attempts + 1)
            (handleFailure env a r (attempts + 1) { s with conn := some c2 }).2.1 hlt (by omega)
        simp only [connectLoop, hdn, hcont, if_true]
        refine ⟨jh1, jh2, jh3, jh4, ?_, ?_⟩
        · simp only [countAttempts] at jh5 ⊢
          simp [List.countP_cons, List.countP_append, isAttempt, jh5,
            show (List.countP isAttempt (handleFailure env a r (attempts + 1)
              { s with conn := some c2 }).2.2) = 0 from
              hf_countAttempts env a r (attempts + 1) _]
          omega
        · intro m d hm
          simp only [List.mem_cons, List.mem_append] at hm
          rcases hm with h | h | h | h
          · injection h with h1 h2
            omega
          · exact absurd h (by simp)
          · have h0 := hf_countAttempts env a r (attempts + 1)
              ({ s with conn := some c2 })
            simp only [countAttempts, List.countP_eq_zero] at h0
            exact absurd (h0 _ h) (by simp [isAttempt])
          · exact jh6 m d h
      · rw [hdn] at hfl
        simp [DriverOutcome.isFail] at hfl

/-- Whatever the oracles, a successful return value is exactly what was
stored in the state. -/
lemma connectLoop_ret_stored (env : ConnectEnv) (a r : Bool) :
    ∀ remaining attempts : Nat, ∀ s : DatabaseConnector, ∀ c cu : Nat,
      ((connectLoop env a r remaining attempts s).retConn = some c →
        (connectLoop env a r remaining attempts s).state.conn = some c) ∧
      ((connectLoop env a r remaining attempts s).retCursor = some cu →
        (connectLoop env a r remaining attempts s).state.cursor = some cu) := by
  intro remaining
  induction remaining with
  | zero =>
    intro attempts s c cu
    exact ⟨fun h => by simp [connectLoop] at h, fun h => by simp [connectLoop] at h⟩
  | succ rem ih =>
    intro attempts s c cu
    rcases hdn : env.driver (attempts + 1) with _ | c2 | ⟨c2, cur2⟩
    · simp only [connectLoop, hdn]
      by_cases hb : (handleFailure env a r (attempts + 1) s).1 = true
      · simp only [hb, if_true]
        exact ih (attempts + 1) _ c cu
      · simp only [Bool.not_eq_true] at hb
        simp only [hb, Bool.false_eq_true, if_false]
        exact ⟨fun h => by simp at h, fun h => by simp at h⟩
    · simp only [connectLoop, hdn]
      by_cases hb : (handleFailure env a r (attempts + 1) { s with conn := some c2 }).1 = true
      · simp only [hb, if_true]
        exact ih (attempts + 1) _ c cu
      · simp only [Bool.not_eq_true] at hb
        simp only [hb, Bool.false_eq_true, if_false]
        exact ⟨fun h => by simp at h, fun h => by simp at h⟩
    · simp only [connectLoop, hdn]
      exact ⟨fun h => by simpa using h, fun h => by simpa using h⟩

/-- Any iteration of the loop starts with the driver attempt, recorded with
the DSN currently in the state. -/
lemma connectLoop_head_attempt (env : ConnectEnv) (a r : Bool)
    (remaining attempts : Nat) (s : DatabaseConnector) (h : 1 ≤ remaining) :
    Event.attemptE (attempts + 1) s.dsn ∈ (connectLoop env a r remaining attempts s).events := by
  rcases remaining with _ | rem
  · omega
  · rcases hdn : env.driver (attempts + 1) with _ | c2 | ⟨c2, cur2⟩ <;>
      simp only [connectLoop, hdn] <;>
      first
        | simp
        | (split_ifs <;> simp)

/-- The invariant "conn and cursor both present or both absent" is
preserved by the loop as long as no attempt opens a connection and then
fails to derive the cursor. -/
lemma connectLoop_inv (env : ConnectEnv) (a r : Bool)
    (hnc : ∀ n, (env.driver n).isCursorFail = false) :
    ∀ remaining attempts : Nat, ∀ s : DatabaseConnector,
      bothOrNeither s → bothOrNeither (connectLoop env a r remaining attempts s).state := by
  intro remaining
  induction remaining with
  | zero =>
    intro attempts s hs
    exact hs
  | succ rem ih =>
    intro attempts s hs
    rcases hdn : env.driver (attempts + 1) with _ | c2 | ⟨c2, cur2⟩
    · simp only [connectLoop, hdn]
      by_cases hb : (handleFailure env a r (attempts + 1) s).1 = true
      · simp only [hb, if_true]
        refine ih (attempts + 1) _ ?_
        unfold bothOrNeither at hs ⊢
        rw [hf_conn, hf_cursor]
        exact hs
      · simp only [Bool.not_eq_true] at hb
        simp only [hb, Bool.false_eq_true, if_false]
        unfold bothOrNeither at hs ⊢
        rw [hf_conn, hf_cursor]
        exact hs
    · have hx := hnc (attempts + 1)
      rw [hdn] at hx
      simp [DriverOutcome.isCursorFail] at hx
    · simp only [connectLoop, hdn]
      unfold bothOrNeither
      rfl

/-- Running the selection loop on a script of invalid entries followed by a
valid index returns the identifier at that index, after one extra prompt
per invalid entry. -/
lemma selectLoop_invalid_run (sources : List (String × String)) (i : Nat)
    (hi : i < sources.length) :
    ∀ bad : List (Option Int),
      (∀ x ∈ bad, ∀ m : Int, x = some m → ¬(0 ≤ m ∧ m < (sources.length : Int))) →
      ∀ n : Nat,
        selectLoop sources (bad ++ [some (i : Int)]) n =
          .selected (sources.get ⟨i, hi⟩).fst (n + bad.length) := by
  intro bad
  induction bad with
  | nil =>
    intro _ n
    simp only [List.nil_append, selectLoop]
    rw [dif_pos ⟨Int.natCast_nonneg i, by exact_mod_cast hi⟩]
    rfl
  | cons x bad ihb =>
    intro hinv n
    rcases x with _ | m
    · simp only [List.cons_append, selectLoop, List.append_eq]
      rw [ihb (fun y hy => hinv y (List.mem_cons_of_mem _ hy)) (n + 1)]
      simp only [List.length_cons]
      congr 1
      omega
    · have hm := hinv (some m) (List.mem_cons_self _ _) m rfl
      simp only [List.cons_append, selectLoop, List.append_eq]
      rw [dif_neg hm]
      rw [ihb (fun y hy => hinv y (List.mem_cons_of_mem _ hy)) (n + 1)]
      simp only [List.length_cons]
      congr 1
      omega

/-! ### Concrete sample data for witnesses and counterexamples -/

/-- An unconnected instance, as produced by the constructor. -/
def sInit : DatabaseConnector := DatabaseConnector.init "DSN0" "alice" "pw"

/-- An instance holding a live connection `1` and cursor `2`. -/
def sConnected : DatabaseConnector := ⟨"DSN0", "alice", "pw", some 1, some 2⟩

/-- Both `close()` calls on the handles return normally. -/
def cenvOk : CloseEnv := ⟨false, false⟩

/-- Driver fails every open; user answers "y" to retry, "n" to DSN change. -/
def envAllFail : ConnectEnv :=
  ⟨fun _ => .openFail, fun _ => "y", fun _ => "n", fun _ => .error "selector down",
   fun _ => "alice", fun _ => "pw2"⟩

/-- Driver opens a connection `7` but the cursor derivation raises. -/
def envCursorFail : ConnectEnv :=
  ⟨fun _ => .cursorFail 7, fun _ => "y", fun _ => "n", fun _ => .error "selector down",
   fun _ => "alice", fun _ => "pw2"⟩

/-- Driver succeeds immediately with connection `1`, cursor `2`. -/
def envOkFirst : ConnectEnv :=
  ⟨fun _ => .ok 1 2, fun _ => "y", fun _ => "n", fun _ => .error "selector down",
   fun _ => "alice", fun _ => "pw2"⟩

/-- Driver fails attempt 1 and succeeds from attempt 2 on (conn 3, cursor 4). -/
def envOkSecond : ConnectEnv :=
  ⟨fun n => if n = 1 then .openFail else .ok 3 4, fun _ => "y", fun _ => "n",
   fun _ => .error "selector down", fun _ => "alice", fun _ => "pw2"⟩

/-- Driver always fails; user hits enter at the retry prompt, asks to change
the DSN, and the reselection itself fails. -/
def envChangeFail : ConnectEnv :=
  ⟨fun _ => .openFail, fun _ => "", fun _ => "y", fun _ => .error "no sources",
   fun _ => "alice", fun _ => "pw2"⟩

/-! ### Claims -/

/-- C1 counterexample: `envCursorFail` is a driver that fails every attempt
(the open succeeds but the cursor derivation raises), with "y" answered at
every retry prompt. With `max_attempts = 2` the run does make exactly 2
attempts, logs the exhaustion and returns `(None, None)` -- but the state is
not Unconnected afterwards: the connection reference is left assigned. -/
theorem C1_counterexample :
    countAttempts (connect envCursorFail sInit (2 : Int) true false).events = 2 ∧
    (connect envCursorFail sInit (2 : Int) true false).retConn = none ∧
    (connect envCursorFail sInit (2 : Int) true false).retCursor = none ∧
    Event.exhaustE ∈ (connect envCursorFail sInit (2 : Int) true false).events ∧
    (connect envCursorFail sInit (2 : Int) true false).state.conn = some 7 ∧
    (connect envCursorFail sInit (2 : Int) true false).state.cursor = none := by
  exact ⟨by decide, by decide, by decide, by decide, by decide, by decide⟩

/-- C1 amended: for every k >= 1, with a driver that fails on every attempt
(in either failure mode) and a user answering yes (or empty) to every retry
prompt, `connect(max_attempts=k)` performs exactly k connection attempts,
reports and logs the final failure, returns `(None, None)`, and leaves the
cursor absent; the connection reference is also left absent -- the state
Unconnected -- provided no attempt opened a connection and then failed to
derive the cursor (such an attempt leaves the connection assigned, the
defect C3 documents). -/
theorem C1_amended_connect_exhausts (env : ConnectEnv) (s : DatabaseConnector)
    (k : Nat) (a r : Bool)
    (_hk : 1 ≤ k)
    (hd : ∀ n, (env.driver n).isFail = true)
    (hy : ∀ n, env.retryAnswer n = "y" ∨ env.retryAnswer n = "")
    (hc0 : s.conn = none) (hcu0 : s.cursor = none) :
    countAttempts (connect env s (k : Int) a r).events = k ∧
    Event.exhaustE ∈ (connect env s (k : Int) a r).events ∧
    (connect env s (k : Int) a r).retConn = none ∧
    (connect env s (k : Int) a r).retCursor = none ∧
    (connect env s (k : Int) a r).state.cursor = none ∧
    ((∀ n, (env.driver n).isCursorFail = false) →
      (connect env s (k : Int) a r).state.conn = none) := by
  have hr : ∀ n, lowerStr (stripStr (env.retryAnswer n)) ≠ "n" := by
    intro n
    rcases hy n with h | h <;> rw [h] <;> decide
  have htn : ((k : Int)).toNat = k := Int.toNat_natCast k
  unfold connect
  rw [htn]
  obtain ⟨h1, h2, h3, h4, h5, h6⟩ := connectLoop_anyFail env a r hd hr k 0 s
  exact ⟨h5, h4, h1, h2, h3.trans hcu0, fun hnc => (h6 hnc).trans hc0⟩

/-- C1 amended witness: two open-failing attempts with "y" at every retry
prompt; the no-cursor-failure side condition holds, so the state ends
Unconnected. -/
theorem C1_amended_witness :
    countAttempts (connect envAllFail sInit ((2 : Nat) : Int) true false).events = 2 ∧
    Event.exhaustE ∈ (connect envAllFail sInit ((2 : Nat) : Int) true false).events ∧
    (connect envAllFail sInit ((2 : Nat) : Int) true false).retConn = none ∧
    (connect envAllFail sInit ((2 : Nat) : Int) true false).retCursor = none ∧
    (connect envAllFail sInit ((2 : Nat) : Int) true false).state.cursor = none ∧
    (connect envAllFail sInit ((2 : Nat) : Int) true false).state.conn = none := by
  obtain ⟨h1, h2, h3, h4, h5, h6⟩ :=
    C1_amended_connect_exhausts envAllFail sInit 2 true false (by decide)
      (fun _ => rfl) (fun _ => Or.inl rfl) rfl rfl
  exact ⟨h1, h2, h3, h4, h5, h6 (fun _ => rfl)⟩

/-- C2: for every k >= 1 and j <= k, with a driver whose attempts before j
fail and whose attempt j succeeds, and a user who keeps retrying,
`connect(max_attempts=k)` returns the present pair of attempt j, stores it
in the instance state, and makes no attempt beyond j. -/
theorem C2_connect_success_at_j (env : ConnectEnv) (s : DatabaseConnector)
    (k j c cur : Nat) (a r : Bool)
    (h1j : 1 ≤ j) (hjk : j ≤ k)
    (hj : env.driver j = .ok c cur)
    (hf : ∀ n, 1 ≤ n → n < j → (env.driver n).isFail = true)
    (hy : ∀ n, 1 ≤ n → n < j → env.retryAnswer n = "y" ∨ env.retryAnswer n = "") :
    (connect env s (k : Int) a r).retConn = some c ∧
    (connect env s (k : Int) a r).retCursor = some cur ∧
    (connect env s (k : Int) a r).state.conn = some c ∧
    (connect env s (k : Int) a r).state.cursor = some cur ∧
    countAttempts (connect env s (k : Int) a r).events = j ∧
    (∀ m d, Event.attemptE m d ∈ (connect env s (k : Int) a r).events → m ≤ j) := by
  have hr : ∀ n, 1 ≤ n → n < j → lowerStr (stripStr (env.retryAnswer n)) ≠ "n" := by
    intro n hn1 hnj
    rcases hy n hn1 hnj with h | h <;> rw [h] <;> decide
  have htn : ((k : Int)).toNat = k := Int.toNat_natCast k
  unfold connect
  rw [htn]
  obtain ⟨h1, h2, h3, h4, h5, h6⟩ :=
    connectLoop_success env a r j c cur hj hf hr k 0 s (by omega) (by omega)
  exact ⟨h1, h2, h3, h4, by simpa using h5, h6⟩

/-- C2 witness: attempt 1 fails, attempt 2 succeeds with (3, 4), budget 3. -/
theorem C2_witness :
    (connect envOkSecond sInit ((3 : Nat) : Int) true false).retConn = some 3 ∧
    (connect envOkSecond sInit ((3 : Nat) : Int) true false).retCursor = some 4 ∧
    (connect envOkSecond sInit ((3 : Nat) : Int) true false).state.conn = some 3 ∧
    (connect envOkSecond sInit ((3 : Nat) : Int) true false).state.cursor = some 4 ∧
    countAttempts (connect envOkSecond sInit ((3 : Nat) : Int) true false).events = 2 ∧
    (∀ m d, Event.attemptE m d ∈ (connect envOkSecond sInit ((3 : Nat) : Int) true false).events →
      m ≤ 2) :=
  C2_connect_success_at_j envOkSecond sInit 3 2 3 4 true false (by decide) (by decide)
    rfl
    (fun n h1 h2 => by
      have : n = 1 := by omega
      subst this
      rfl)
    (fun n h1 h2 => Or.inl rfl)

/-- C3 counterexample: with a driver whose open succeeds but whose cursor
derivation fails, a single `connect` attempt leaves `conn` present and
`cursor` absent, violating the both-present-or-both-absent invariant. -/
theorem C3_counterexample :
    ¬ bothOrNeither (connect envCursorFail sInit (1 : Int) true false).state ∧
    (connect envCursorFail sInit (1 : Int) true false).state.conn = some 7 ∧
    (connect envCursorFail sInit (1 : Int) true false).state.cursor = none := by
  refine ⟨by decide, by decide, by decide⟩

/-- C3 amended: the invariant holds after construction and after `close`
(which never touches the references), and is preserved by `connect`
provided no attempt opens a connection and then fails deriving the cursor. -/
theorem C3_amended_invariant (cenv : CloseEnv) (env : ConnectEnv) (s : DatabaseConnector)
    (k : Int) (a r : Bool) (d u p : String)
    (hs : bothOrNeither s)
    (hnc : ∀ n, (env.driver n).isCursorFail = false) :
    bothOrNeither (DatabaseConnector.init d u p) ∧
    bothOrNeither (close cenv s).1 ∧
    bothOrNeither (connect env s k a r).state := by
  refine ⟨rfl, ?_, connectLoop_inv env a r hnc k.toNat 0 s hs⟩
  rw [close_state_eq]
  exact hs

/-- C3 amended witness: always-open-failing driver, connected start state. -/
theorem C3_amended_witness :
    bothOrNeither (DatabaseConnector.init "D" "u" "p") ∧
    bothOrNeither (close cenvOk sConnected).1 ∧
    bothOrNeither (connect envAllFail sConnected (2 : Int) true false).state :=
  C3_amended_invariant cenvOk envAllFail sConnected 2 true false "D" "u" "p"
    (by decide) (fun _ => rfl)

/-- C4 counterexample: with `max_attempts = 1` the first attempt is the
final one; after it fails, `connect` still issues the retry prompt, the
DSN-change prompt and the password re-prompt before leaving the loop. -/
theorem C4_counterexample :
    Event.retryPromptE 1 ∈ (connect envAllFail sInit (1 : Int) true false).events ∧
    Event.changePromptE 1 ∈ (connect envAllFail sInit (1 : Int) true false).events ∧
    Event.passPromptE 1 ∈ (connect envAllFail sInit (1 : Int) true false).events := by
  refine ⟨by decide, by decide, by decide⟩

/-- C4 amended: under an always-failing driver and a user who keeps
retrying, `connect(max_attempts=k)` issues one retry prompt and one
credential re-prompt per failed attempt including the final k-th one (k of
each in total), and only then exits the loop. -/
theorem C4_amended_final_attempt_prompts (env : ConnectEnv) (s : DatabaseConnector)
    (k : Nat) (a r : Bool)
    (hk : 1 ≤ k)
    (hd : ∀ n, env.driver n = .openFail)
    (hy : ∀ n, env.retryAnswer n = "y" ∨ env.retryAnswer n = "") :
    countRetryPrompts (connect env s (k : Int) a r).events = k ∧
    countPassPrompts (connect env s (k : Int) a r).events = k ∧
    Event.retryPromptE k ∈ (connect env s (k : Int) a r).events ∧
    Event.passPromptE k ∈ (connect env s (k : Int) a r).events := by
  have hr : ∀ n, lowerStr (stripStr (env.retryAnswer n)) ≠ "n" := by
    intro n
    rcases hy n with h | h <;> rw [h] <;> decide
  have htn : ((k : Int)).toNat = k := Int.toNat_natCast k
  unfold connect
  rw [htn]
  obtain ⟨h1, h2, h3, h4, h5, h6, h7, h8, h9⟩ := connectLoop_allFail env a r hd hr k 0 s
  obtain ⟨hm1, hm2⟩ := h9 k (by omega) (by omega)
  exact ⟨h7, h8, hm1, hm2⟩

/-- C4 amended witness: one attempt, one retry prompt and one password
prompt, both for the final (only) attempt. -/
theorem C4_amended_witness :
    countRetryPrompts (connect envAllFail sInit ((1 : Nat) : Int) true false).events = 1 ∧
    countPassPrompts (connect envAllFail sInit ((1 : Nat) : Int) true false).events = 1 ∧
    Event.retryPromptE 1 ∈ (connect envAllFail sInit ((1 : Nat) : Int) true false).events ∧
    Event.passPromptE 1 ∈ (connect envAllFail sInit ((1 : Nat) : Int) true false).events :=
  C4_amended_final_attempt_prompts envAllFail sInit 1 true false (by decide)
    (fun _ => rfl) (fun _ => Or.inl rfl)

/-- C5 counterexample: after a first `close()` on a connected instance the
cursor and connection references are still set (not cleared), and a second
`close()` performs the close operations again instead of being a no-op. -/
theorem C5_counterexample :
    (close cenvOk sConnected).1.cursor = some 2 ∧
    (close cenvOk sConnected).1.conn = some 1 ∧
    (close cenvOk (close cenvOk sConnected).1).2 =
      [Event.cursorClosedE, Event.connClosedE] := by
  refine ⟨by decide, by decide, by decide⟩

/-- C5 amended: `close()` returns normally for every state and every
behaviour of the underlying handles (exceptions are caught inside it, which
the totality of `close` makes structural), but it never clears the
references, so a second consecutive `close()` repeats exactly the same
close operations and logging instead of being a no-op. -/
theorem C5_amended_close_repeats (cenv cenv2 : CloseEnv) (s : DatabaseConnector) :
    (close cenv s).1 = s ∧
    close cenv2 (close cenv s).1 = close cenv2 s := by
  refine ⟨close_state_eq cenv s, ?_⟩
  rw [close_state_eq]

/-- C6: `query_dataframe` on an instance without a connection fails with
the no-active-connection error, without consulting the pandas capability
(the result does not depend on it); with a connection present it delegates
to the capability and returns its result unmodified. The instance state is
never modified (structurally: `query_dataframe` does not produce a state). -/
theorem C6_query_dataframe_spec (f g : String → Nat → Nat) (s : DatabaseConnector)
    (sql : String) :
    (s.conn = none →
      query_dataframe f s sql =
        Except.error "No active database connection. Call connect() first." ∧
      query_dataframe f s sql = query_dataframe g s sql) ∧
    (∀ c, s.conn = some c → query_dataframe f s sql = Except.ok (f sql c)) := by
  constructor
  · intro h
    unfold query_dataframe
    rw [h]
    exact ⟨rfl, rfl⟩
  · intro c h
    unfold query_dataframe
    rw [h]

/-- C6 witness: unconnected instance errors, connected instance delegates. -/
theorem C6_witness :
    query_dataframe (fun _ c => c + 1) sInit "select 1" =
      Except.error "No active database connection. Call connect() first." ∧
    query_dataframe (fun _ c => c + 1) sConnected "select 1" = Except.ok 2 :=
  ⟨((C6_query_dataframe_spec (fun _ c => c + 1) (fun _ _ => 0) sInit "select 1").1 rfl).1,
   (C6_query_dataframe_spec (fun _ c => c + 1) (fun _ _ => 0) sConnected "select 1").2 1 rfl⟩

/-- C7: when the first attempt fails, the user keeps going and asks to
reselect the DSN, and the reselection itself fails, the failure is reported
(`selectorFailE`) but not escalated: `connect` goes on to attempt 2 using
the prior DSN unchanged. -/
theorem C7_change_dsn_failure_kept (env : ConnectEnv) (s : DatabaseConnector)
    (k : Int) (r : Bool) (e : String)
    (hk : 2 ≤ k)
    (hd1 : env.driver 1 = .openFail)
    (hr1 : env.retryAnswer 1 = "y" ∨ env.retryAnswer 1 = "")
    (hc1 : env.changeAnswer 1 = "y")
    (hsel : env.selectorResult 1 = .error e) :
    Event.selectorFailE 1 ∈ (connect env s k true r).events ∧
    Event.attemptE 2 s.dsn ∈ (connect env s k true r).events := by
  have hrn : lowerStr (stripStr (env.retryAnswer 1)) ≠ "n" := by
    rcases hr1 with h | h <;> rw [h] <;> decide
  have hcy : lowerStr (stripStr (env.changeAnswer 1)) = "y" := by
    rw [hc1]
    decide
  obtain ⟨m, hm⟩ : ∃ m, k.toNat = m + 1 + 1 := ⟨k.toNat - 2, by omega⟩
  have hcont := hf_cont env true r 1 s hrn
  unfold connect
  rw [hm]
  simp only [connectLoop, hd1, hcont, if_true]
  constructor
  · simp only [List.mem_cons, List.mem_append]
    exact Or.inr (Or.inr (Or.inl (hf_selectorFail_mem env r 1 s e hrn hcy hsel)))
  · have hdsn : (handleFailure env true r 1 s).2.1.dsn = s.dsn :=
      hf_dsn_of_selector_error env true r 1 s e hsel
    have hmem := connectLoop_head_attempt env true r (m + 1) 1
      ((handleFailure env true r 1 s).2.1) (by omega)
    rw [hdsn] at hmem
    simp only [List.mem_cons, List.mem_append]
    exact Or.inr (Or.inr (Or.inr hmem))

/-- C7 witness: empty retry answer, "y" to the DSN change, failing selector,
budget 2: the failure is reported and attempt 2 reuses DSN "DSN0". -/
theorem C7_witness :
    Event.selectorFailE 1 ∈ (connect envChangeFail sInit (2 : Int) true false).events ∧
    Event.attemptE 2 "DSN0" ∈ (connect envChangeFail sInit (2 : Int) true false).events :=
  C7_change_dsn_failure_kept envChangeFail sInit 2 false "no sources" (by decide)
    rfl (Or.inr rfl) rfl rfl

/-- C8: `_select_dsn` fails with the no-DSNs error exactly when the
environment reports zero data sources; on a non-empty source list, any
script of invalid entries (non-integer lines or out-of-range indices)
followed by a valid index i re-prompts once per invalid entry and returns
the identifier at index i. -/
theorem C8_select_dsn_spec (sources : List (String × String)) (bad : List (Option Int))
    (i : Nat) (inputs : List (Option Int))
    (hne : sources ≠ [])
    (hbad : ∀ x ∈ bad, ∀ m : Int, x = some m → ¬(0 ≤ m ∧ m < (sources.length : Int)))
    (hi : i < sources.length) :
    select_dsn [] inputs = .noSources ∧
    select_dsn sources (bad ++ [some (i : Int)]) =
      .selected (sources.get ⟨i, hi⟩).fst (bad.length + 1) := by
  constructor
  · rfl
  · unfold select_dsn
    have hemp : sources.isEmpty = false := by
      cases sources
      · exact absurd rfl hne
      · rfl
    simp only [hemp, Bool.false_eq_true, if_false]
    rw [selectLoop_invalid_run sources i hi bad hbad 1]
    congr 1
    omega

/-- C8 witness: zero sources fail; one source with input "0" returns its
identifier at the first prompt; "abc" then "0" re-prompts once then
succeeds. -/
theorem C8_witness :
    select_dsn [] [some 0] = SelectResult.noSources ∧
    select_dsn [("A", "drv")] [some ((0 : Nat) : Int)] = SelectResult.selected "A" 1 ∧
    select_dsn [("A", "drv")] ([none] ++ [some ((0 : Nat) : Int)]) =
      SelectResult.selected "A" 2 := by
  refine ⟨(C8_select_dsn_spec [("A", "drv")] [] 0 [some 0] (by simp) (by simp)
    (by decide)).1, ?_, ?_⟩
  · have h := (C8_select_dsn_spec [("A", "drv")] [] 0 [] (by simp) (by simp) (by decide)).2
    simpa using h
  · have h := (C8_select_dsn_spec [("A", "drv")] [none] 0 [] (by simp)
      (by
        intro x hx m hm
        rw [List.mem_singleton] at hx
        subst hx
        cases hm)
      (by decide)).2
    simpa using h

/-- C9 (implicit): for every `max_attempts <= 0` the while loop body never
runs: no connection attempt, no prompt, only the exhaustion message; the
return value is `(None, None)` and the whole instance state is unchanged. -/
theorem C9_connect_nonpositive (env : ConnectEnv) (s : DatabaseConnector)
    (k : Int) (a r : Bool) (hk : k ≤ 0) :
    connect env s k a r = ⟨s, [Event.exhaustE], none, none⟩ ∧
    countAttempts (connect env s k a r).events = 0 ∧
    countPrompts (connect env s k a r).events = 0 := by
  have h0 : k.toNat = 0 := by omega
  unfold connect
  rw [h0]
  exact ⟨rfl, rfl, rfl⟩

/-- C9 witness: `max_attempts = 0` and `max_attempts = -3`. -/
theorem C9_witness :
    (connect envAllFail sInit (0 : Int) true false =
        ⟨sInit, [Event.exhaustE], none, none⟩ ∧
      countAttempts (connect envAllFail sInit (0 : Int) true false).events = 0 ∧
      countPrompts (connect envAllFail sInit (0 : Int) true false).events = 0) ∧
    (connect envAllFail sInit (-3 : Int) true false =
        ⟨sInit, [Event.exhaustE], none, none⟩ ∧
      countAttempts (connect envAllFail sInit (-3 : Int) true false).events = 0 ∧
      countPrompts (connect envAllFail sInit (-3 : Int) true false).events = 0) :=
  ⟨C9_connect_nonpositive envAllFail sInit 0 true false (by decide),
   C9_connect_nonpositive envAllFail sInit (-3) true false (by decide)⟩

/-- C10 (implicit): after a `connect` that returned a connection `c`,
`close()` leaves the connection reference set, so `query_dataframe` on the
post-close state does not raise the no-active-connection error for any sql:
it delegates the query to the already-closed handle `c`. -/
theorem C10_query_after_close (env : ConnectEnv) (cenv : CloseEnv)
    (f : String → Nat → Nat) (s : DatabaseConnector) (k : Int) (a r : Bool)
    (sql : String) (c : Nat)
    (h : (connect env s k a r).retConn = some c) :
    query_dataframe f (close cenv (connect env s k a r).state).1 sql =
      Except.ok (f sql c) ∧
    query_dataframe f (close cenv (connect env s k a r).state).1 sql ≠
      Except.error "No active database connection. Call connect() first." := by
  unfold connect at h ⊢
  have hc : (connectLoop env a r k.toNat 0 s).state.conn = some c :=
    (connectLoop_ret_stored env a r k.toNat 0 s c 0).1 h
  rw [close_state_eq]
  constructor
  · unfold query_dataframe
    rw [hc]
  · unfold query_dataframe
    rw [hc]
    simp

/-- C10 witness: immediate success with connection 1, then close, then a
query that still reaches the pandas capability with handle 1. -/
theorem C10_witness :
    query_dataframe (fun _ c => c * 10)
      (close cenvOk (connect envOkFirst sInit (1 : Int) true false).state).1 "select 1" =
      Except.ok 10 ∧
    query_dataframe (fun _ c => c * 10)
      (close cenvOk (connect envOkFirst sInit (1 : Int) true false).state).1 "select 1" ≠
      Except.error "No active database connection. Call connect() first." :=
  C10_query_after_close envOkFirst cenvOk (fun _ c => c * 10) sInit 1 true false
    "select 1" 1 (by decide)

end ODBC
